import Mathlib

/-!
Verification development for the medication-supply API (`src/main.py`).

The embedding models:
* Python's true division `a / b` of arbitrary-precision integers, which
  produces an IEEE-754 binary64 value (round to nearest, ties to even) and
  raises `OverflowError` when the rounded quotient reaches `2^1024` —
  modelled by `floatDiv`, which returns the float as an exact dyadic value
  `num * 2^exp` (`PyFloat`) and `none` on overflow or division by zero;
* `int(·)` applied to a float, i.e. truncation toward zero — `pytrunc`;
* `datetime.date`: strict `YYYY-MM-DD` ISO parsing (`date.fromisoformat`),
  proleptic-Gregorian ordinals (`date.toordinal`) whose difference gives
  `(d1 - d2).days`, and `str(date)` (`PyDate.toIso`);
* the SQLAlchemy rows, the Pydantic schemas and the route handlers, with
  the database as an explicit state record and the ambient clock
  (`date.today()`) as an explicit parameter.
-/

/-- Round `n / d` to the nearest integer, ties to even (`d ≥ 1` assumed). -/
def rne (n d : Nat) : Nat :=
  if 2 * (n % d) < d then n / d
  else if d < 2 * (n % d) then n / d + 1
  else if (n / d) % 2 = 0 then n / d else n / d + 1

/-- Greedy binary-logarithm loop: shift the accumulator right by each `k`
whenever it is still at least `2^k`, totalling the shifts. -/
def lgRun : List Nat → Nat × Nat → Nat × Nat
  | [], p => p
  | k :: ks, p => lgRun ks (if 1 <<< k ≤ p.1 then (p.1 >>> k, p.2 + k) else p)

/-- Binary logarithm (floor), valid for `1 ≤ n < 2^4096`; computed with a
fixed cascade of shifts so that it evaluates by kernel reduction. -/
def lg (n : Nat) : Nat :=
  (lgRun [2048, 1024, 512, 256, 128, 64, 32, 16, 8, 4, 2, 1] (n, 0)).2

/-- An IEEE-754 binary64 value represented exactly as `num * 2^exp`. -/
structure PyFloat where
  num : Int
  exp : Int
deriving DecidableEq

/-- Does the dyadic magnitude `s * 2^e` reach `2^1024` (the float overflow
threshold)? -/
def dyOverflow (s : Nat) (e : Int) : Bool :=
  if 0 ≤ e then decide (1 <<< 1024 ≤ s <<< e.toNat)
  else decide (1 <<< (1024 + (-e).toNat) ≤ s)

/-- Python's true division `a / b` on integers: the exact quotient rounded to
binary64 (round to nearest, ties to even; subnormal quantum `2^(-1074)`).
Returns `none` on `ZeroDivisionError` (`b = 0`) and on `OverflowError`
(the rounded magnitude reaches `2^1024`).

The magnitude is rounded by `floatDivPos` (as significand and exponent)
and the sign of the quotient is put back on the significand. -/
def floatDivPos (A B : Nat) : Option (Nat × Int) :=
  if B <<< 1024 ≤ A then none
  else if A <<< 1022 < B then
    some (rne (A <<< 1074) B, -1074)
  else
    let E : Int := (lg (A <<< 1100 / B) : Int) - 1100
    let s := rne (A <<< (52 - E).toNat) (B <<< (E - 52).toNat)
    if dyOverflow s (E - 52) then none
    else some (s, E - 52)

/-- Python's true division `a / b` on integers (see `floatDivPos`). -/
def floatDiv (a b : Int) : Option PyFloat :=
  if b = 0 then none
  else
    let neg : Bool := decide (a < 0) != decide (b < 0)
    (floatDivPos a.natAbs b.natAbs).map
      (fun p => ⟨if neg then -(p.1 : Int) else (p.1 : Int), p.2⟩)

/-- Python's `int(·)` on a float: truncation toward zero of `num * 2^exp`. -/
def pytrunc (x : PyFloat) : Int :=
  if 0 ≤ x.exp then x.num * ((1 <<< x.exp.toNat : Nat) : Int)
  else Int.tdiv x.num ((1 <<< (-x.exp).toNat : Nat) : Int)

/-- A `datetime.date` value: year, month, day. -/
structure PyDate where
  year : Nat
  month : Nat
  day : Nat
deriving DecidableEq

/-- Gregorian leap-year rule, as in `calendar.isleap`. -/
def isLeap (y : Nat) : Bool :=
  y % 4 == 0 && (y % 100 != 0 || y % 400 == 0)

/-- Number of days in a month (month `1`-`12`). -/
def daysInMonth (y m : Nat) : Nat :=
  if m = 2 then (if isLeap y then 29 else 28)
  else if m = 4 ∨ m = 6 ∨ m = 9 ∨ m = 11 then 30
  else 31

/-- Days in year `y` strictly before month `m` (month `1`-`12`). -/
def daysBeforeMonth (y m : Nat) : Nat :=
  let base := [0, 0, 31, 59, 90, 120, 151, 181, 212, 243, 273, 304, 334].getD m 0
  if 3 ≤ m ∧ isLeap y then base + 1 else base

/-- `date.toordinal()`: day number in the proleptic Gregorian calendar,
with `0001-01-01` as day `1`. -/
def PyDate.toOrdinal (d : PyDate) : Nat :=
  let py := d.year - 1
  365 * py + py / 4 - py / 100 + py / 400 + daysBeforeMonth d.year d.month + d.day

/-- `(d1 - d2).days`: the signed whole-day difference of two dates. -/
def dateDiffDays (d1 d2 : PyDate) : Int :=
  (d1.toOrdinal : Int) - (d2.toOrdinal : Int)

/-- The decimal digit character for `n < 10`. -/
def digitChar (n : Nat) : Char :=
  Char.ofNat (48 + n)

/-- Zero-padded two-digit decimal rendering. -/
def pad2 (n : Nat) : String :=
  String.mk [digitChar (n / 10 % 10), digitChar (n % 10)]

/-- Zero-padded four-digit decimal rendering. -/
def pad4 (n : Nat) : String :=
  String.mk [digitChar (n / 1000 % 10), digitChar (n / 100 % 10),
             digitChar (n / 10 % 10), digitChar (n % 10)]

/-- `str(date)`: the ISO `YYYY-MM-DD` rendering (years up to 9999). -/
def PyDate.toIso (d : PyDate) : String :=
  pad4 d.year ++ "-" ++ pad2 d.month ++ "-" ++ pad2 d.day

/-- The numeric value of a decimal digit character, if it is one. -/
def digitVal (c : Char) : Option Nat :=
  if 48 ≤ c.toNat ∧ c.toNat ≤ 57 then some (c.toNat - 48) else none

/-- `date.fromisoformat`: parse a strict `YYYY-MM-DD` string into a valid
calendar date; `none` models the `ValueError` raised on anything else. -/
def fromisoformat (s : String) : Option PyDate :=
  match s.data with
  | [y1, y2, y3, y4, c1, m1, m2, c2, d1, d2] =>
    if c1 = '-' ∧ c2 = '-' then
      match digitVal y1, digitVal y2, digitVal y3, digitVal y4,
            digitVal m1, digitVal m2, digitVal d1, digitVal d2 with
      | some a, some b, some c, some e, some f, some g, some h, some i =>
        let y := 1000 * a + 100 * b + 10 * c + e
        let m := 10 * f + g
        let dd := 10 * h + i
        if 1 ≤ y ∧ 1 ≤ m ∧ m ≤ 12 ∧ 1 ≤ dd ∧ dd ≤ daysInMonth y m then
          some ⟨y, m, dd⟩
        else none
      | _, _, _, _, _, _, _, _ => none
    else none
  | _ => none

/-- Pydantic schema `HistoricoCompra` (also the shape stored per row). -/
structure HistoricoCompra where
  preco : PyFloat
  local_ : String
deriving DecidableEq

/-- Pydantic schema `RemedioCreate`: the create/update request body.
There is no `dias_restantes` field. -/
structure RemedioCreate where
  nome : String
  dose_diaria : Int
  doses_caixa : Int
  cpf_convenio : Option String := some ""
  historico_compras : List HistoricoCompra := []
  na_lista_compras : Option Bool := some false
deriving DecidableEq

/-- ORM row of table `remedios`. `data_inicio` is stored as text
(`YYYY-MM-DD`); there is no `dias_restantes` column. -/
structure RemedioDB where
  id : Int
  nome : String
  dose_diaria : Int
  doses_caixa : Int
  cpf_convenio : Option String
  data_inicio : Option String
  na_lista_compras : Option Bool
deriving DecidableEq

/-- ORM row of table `historico_compras`. -/
structure HistoricoDB where
  id : Nat
  remedio_id : Int
  preco : PyFloat
  local_ : String
deriving DecidableEq

/-- Pydantic schema `RemedioResponse`. -/
structure RemedioResponse where
  id : Int
  nome : String
  dose_diaria : Int
  doses_caixa : Int
  cpf_convenio : Option String
  historico_compras : List HistoricoCompra
  data_inicio : Option String
  dias_restantes : Option Int
  na_lista_compras : Option Bool
deriving DecidableEq

/-- The database: both tables plus the autoincrement counters. -/
structure DBState where
  remedios : List RemedioDB
  historico : List HistoricoDB
  nextRemedioId : Int
  nextHistId : Nat
deriving DecidableEq

/-- `calcular_dias_restantes` (src/main.py lines 106-122).  The ambient
clock `date.today()` read inside the function body is passed explicitly as
`hoje`.  The bare `except` that returns `0` shows up as the `none` branches
of the parse (`ValueError`) and of the division (`OverflowError`). -/
def calcular_dias_restantes (hoje : PyDate) (remedio_db : RemedioDB) : Int :=
  match remedio_db.data_inicio with
  | none => 0
  | some str_inicio =>
    if str_inicio = "" ∨ remedio_db.dose_diaria ≤ 0 then 0
    else
      match fromisoformat str_inicio with
      | none => 0
      | some data_inicio =>
        match floatDiv remedio_db.doses_caixa remedio_db.dose_diaria with
        | none => 0
        | some q =>
          let duracao_total := pytrunc q
          let dias_passados := dateDiffDays hoje data_inicio
          duracao_total - dias_passados

/-- The `historico_compras` relationship rows of one medication. -/
def historicoOf (db : DBState) (rid : Int) : List HistoricoDB :=
  db.historico.filter (fun h => h.remedio_id == rid)

/-- Serialize one stored row (plus its relationship) into the response
schema, recomputing `dias_restantes` as every handler does. -/
def respOf (hoje : PyDate) (db : DBState) (r : RemedioDB) : RemedioResponse :=
  { id := r.id
    nome := r.nome
    dose_diaria := r.dose_diaria
    doses_caixa := r.doses_caixa
    cpf_convenio := r.cpf_convenio
    historico_compras := (historicoOf db r.id).map (fun h => ⟨h.preco, h.local_⟩)
    data_inicio := r.data_inicio
    dias_restantes := some (calcular_dias_restantes hoje r)
    na_lista_compras := r.na_lista_compras }

/-- `GET /remedios` (lines 126-135). -/
def listar_remedios (hoje : PyDate) (db : DBState) : List RemedioResponse :=
  db.remedios.map (respOf hoje db)

/-- Insert the request's history entries as rows with sequential ids. -/
def mkHistRows (startId : Nat) (rid : Int) : List HistoricoCompra → List HistoricoDB
  | [] => []
  | h :: t => ⟨startId, rid, h.preco, h.local_⟩ :: mkHistRows (startId + 1) rid t

/-- `POST /remedios` (lines 137-169): build the row with
`data_inicio = str(date.today())`, insert it and its history rows, and
answer with the serialized row. -/
def criar_remedio (hoje : PyDate) (remedio : RemedioCreate) (db : DBState) :
    RemedioResponse × DBState :=
  let db_remedio : RemedioDB :=
    { id := db.nextRemedioId
      nome := remedio.nome
      dose_diaria := remedio.dose_diaria
      doses_caixa := remedio.doses_caixa
      cpf_convenio := remedio.cpf_convenio
      data_inicio := some (PyDate.toIso hoje)
      na_lista_compras := remedio.na_lista_compras }
  let db' : DBState :=
    { remedios := db.remedios ++ [db_remedio]
      historico := db.historico ++ mkHistRows db.nextHistId db_remedio.id remedio.historico_compras
      nextRemedioId := db.nextRemedioId + 1
      nextHistId := db.nextHistId + remedio.historico_compras.length }
  (respOf hoje db' db_remedio, db')

/-- Replace the first row with the given id (the ORM mutates the object
`query(...).filter(...).first()` returned). -/
def replaceFirstById (rid : Int) (new : RemedioDB) : List RemedioDB → List RemedioDB
  | [] => []
  | r :: t => if r.id = rid then new :: t else r :: replaceFirstById rid new t

/-- `PUT /remedios/{id}` (lines 171-204): `none` models the 404.  All basic
fields are overwritten — but not `data_inicio` — and the history rows of
this medication are deleted and recreated from the request. -/
def atualizar_remedio (hoje : PyDate) (remedio_id : Int)
    (remedio_atualizado : RemedioCreate) (db : DBState) :
    Option (RemedioResponse × DBState) :=
  match db.remedios.find? (fun r => r.id == remedio_id) with
  | none => none
  | some db_remedio =>
    let updated : RemedioDB :=
      { db_remedio with
        nome := remedio_atualizado.nome
        dose_diaria := remedio_atualizado.dose_diaria
        doses_caixa := remedio_atualizado.doses_caixa
        cpf_convenio := remedio_atualizado.cpf_convenio
        na_lista_compras := remedio_atualizado.na_lista_compras }
    let db' : DBState :=
      { remedios := replaceFirstById remedio_id updated db.remedios
        historico := db.historico.filter (fun h => !(h.remedio_id == remedio_id))
          ++ mkHistRows db.nextHistId remedio_id remedio_atualizado.historico_compras
        nextRemedioId := db.nextRemedioId
        nextHistId := db.nextHistId + remedio_atualizado.historico_compras.length }
    some (respOf hoje db' updated, db')

/-- `DELETE /remedios/{id}` (lines 206-215): `none` models the 404; the
`cascade="all, delete-orphan"` relationship removes the history rows. -/
def deletar_remedio (remedio_id : Int) (db : DBState) : Option DBState :=
  match db.remedios.find? (fun r => r.id == remedio_id) with
  | none => none
  | some _ =>
    some { db with
      remedios := db.remedios.filter (fun r => !(r.id == remedio_id))
      historico := db.historico.filter (fun h => !(h.remedio_id == remedio_id)) }

/-- Witness fixtures: a one-medication database with one history row, and
an update request carrying a different history. -/
def witDB : DBState :=
  ⟨[⟨1, "a", 3, 30, some "", some "2024-03-01", some false⟩],
   [⟨0, 1, ⟨3, 0⟩, "farmacia"⟩], 2, 1⟩

def witUpd : RemedioCreate :=
  ⟨"b", 3, 30, some "", [⟨⟨5, 0⟩, "drogaria"⟩], some true⟩

def witResp : RemedioResponse :=
  ⟨1, "b", 3, 30, some "", [⟨⟨5, 0⟩, "drogaria"⟩], some "2024-03-01",
   some 1, some true⟩

def witDB' : DBState :=
  ⟨[⟨1, "b", 3, 30, some "", some "2024-03-01", some true⟩],
   [⟨1, 1, ⟨5, 0⟩, "drogaria"⟩], 2, 2⟩

/-! ### Arithmetic facts about the float model -/

theorem rne_cases (n d : Nat) :
    rne n d = n / d ∨ (rne n d = n / d + 1 ∧ d ≤ 2 * (n % d)) := by
  unfold rne
  by_cases h1 : 2 * (n % d) < d
  · simp [h1]
  · by_cases h2 : d < 2 * (n % d)
    · simp [h1, h2]; omega
    · by_cases h3 : (n / d) % 2 = 0 <;> simp [h1, h2, h3] <;> omega

theorem rne_le (n d : Nat) : rne n d ≤ n / d + 1 := by
  rcases rne_cases n d with h | ⟨h, _⟩ <;> omega

theorem lgRun_step (n k : Nat) (ks : List Nat) (f e : Nat)
    (hf : f = n >>> e) (hb : f < 2 ^ (2 * k)) (hp : 1 ≤ f) :
    ∃ f' e', lgRun (k :: ks) (f, e) = lgRun ks (f', e') ∧
      f' = n >>> e' ∧ f' < 2 ^ k ∧ 1 ≤ f' := by
  by_cases h : 1 <<< k ≤ f
  · refine ⟨f >>> k, e + k, by simp [lgRun, h], ?_, ?_, ?_⟩
    · rw [hf, Nat.shiftRight_add]
    · rw [Nat.shiftRight_eq_div_pow]
      rw [Nat.div_lt_iff_lt_mul (Nat.pos_pow_of_pos k (by norm_num))]
      calc f < 2 ^ (2 * k) := hb
        _ = 2 ^ k * 2 ^ k := by rw [← pow_add]; ring_nf
    · rw [Nat.shiftRight_eq_div_pow]
      rw [Nat.le_div_iff_mul_le (Nat.pos_pow_of_pos k (by norm_num))]
      simpa [Nat.shiftLeft_eq] using h
  · refine ⟨f, e, by simp [lgRun, h], hf, ?_, hp⟩
    rw [Nat.shiftLeft_eq, one_mul] at h
    omega

theorem lg_shiftRight_eq_one (n : Nat) (h1 : 1 ≤ n) (h2 : n < 2 ^ 4096) :
    n >>> lg n = 1 := by
  obtain ⟨f1, e1, w1, hf1, hb1, hp1⟩ :=
    lgRun_step n 2048 _ n 0 (by simp) (by simpa using h2) h1
  obtain ⟨f2, e2, w2, hf2, hb2, hp2⟩ := lgRun_step n 1024 _ f1 e1 hf1 (by simpa using hb1) hp1
  obtain ⟨f3, e3, w3, hf3, hb3, hp3⟩ := lgRun_step n 512 _ f2 e2 hf2 (by simpa using hb2) hp2
  obtain ⟨f4, e4, w4, hf4, hb4, hp4⟩ := lgRun_step n 256 _ f3 e3 hf3 (by simpa using hb3) hp3
  obtain ⟨f5, e5, w5, hf5, hb5, hp5⟩ := lgRun_step n 128 _ f4 e4 hf4 (by simpa using hb4) hp4
  obtain ⟨f6, e6, w6, hf6, hb6, hp6⟩ := lgRun_step n 64 _ f5 e5 hf5 (by simpa using hb5) hp5
  obtain ⟨f7, e7, w7, hf7, hb7, hp7⟩ := lgRun_step n 32 _ f6 e6 hf6 (by simpa using hb6) hp6
  obtain ⟨f8, e8, w8, hf8, hb8, hp8⟩ := lgRun_step n 16 _ f7 e7 hf7 (by simpa using hb7) hp7
  obtain ⟨f9, e9, w9, hf9, hb9, hp9⟩ := lgRun_step n 8 _ f8 e8 hf8 (by simpa using hb8) hp8
  obtain ⟨f10, e10, w10, hf10, hb10, hp10⟩ := lgRun_step n 4 _ f9 e9 hf9 (by simpa using hb9) hp9
  obtain ⟨f11, e11, w11, hf11, hb11, hp11⟩ := lgRun_step n 2 _ f10 e10 hf10 (by simpa using hb10) hp10
  obtain ⟨f12, e12, w12, hf12, hb12, hp12⟩ := lgRun_step n 1 _ f11 e11 hf11 (by simpa using hb11) hp11
  have hrun : lg n = e12 := by
    unfold lg
    rw [w1, w2, w3, w4, w5, w6, w7, w8, w9, w10, w11, w12]
    rfl
  have : f12 = 1 := by omega
  rw [hrun, ← hf12, this]

theorem lg_binade (n : Nat) (h1 : 1 ≤ n) (h2 : n < 2 ^ 4096) :
    2 ^ lg n ≤ n ∧ n < 2 ^ (lg n + 1) := by
  have h := lg_shiftRight_eq_one n h1 h2
  rw [Nat.shiftRight_eq_div_pow] at h
  have hd := Nat.div_add_mod n (2 ^ lg n)
  have hm : n % 2 ^ lg n < 2 ^ lg n :=
    Nat.mod_lt n (Nat.pos_pow_of_pos _ (by norm_num))
  rw [h] at hd
  constructor
  · omega
  · rw [pow_succ]
    omega

theorem round_div_eq (A B m L : Nat) (hB : 1 ≤ B) (hA : A < 2 ^ 53)
    (hmL : m + L = 1152) (hlow : B * 2 ^ L ≤ A * 2 ^ 1100) :
    rne (A * 2 ^ m) B / 2 ^ m = A / B := by
  have hPm : 0 < 2 ^ m := Nat.pos_pow_of_pos _ (by norm_num)
  have base : A * 2 ^ m / B / 2 ^ m = A / B := by
    rw [Nat.div_div_eq_div_mul, Nat.mul_div_mul_right _ _ hPm]
  rcases rne_cases (A * 2 ^ m) B with hs | ⟨hs, hround⟩
  · rw [hs]; exact base
  · rw [hs]
    have hdm := Nat.div_add_mod (A * 2 ^ m / B) (2 ^ m)
    have hc : A * 2 ^ m / B % 2 ^ m < 2 ^ m := Nat.mod_lt _ hPm
    by_cases hce : A * 2 ^ m / B % 2 ^ m = 2 ^ m - 1
    · exfalso
      -- a round-up at an all-ones tail forces B ≥ 2^(m+1), which together
      -- with the binade lower bound forces A ≥ 2^53
      have en := Nat.div_add_mod (A * 2 ^ m) B
      have hr : A * 2 ^ m % B < B := Nat.mod_lt _ (by omega)
      set q' := A * 2 ^ m / B with hq'
      set r' := A * 2 ^ m % B with hr'
      set t := q' / 2 ^ m with ht
      have hqe : q' = 2 ^ m * t + (2 ^ m - 1) := by omega
      have key : ((2 : ℤ) ^ m) * ((B : ℤ) * (t + 1) - A) = (B : ℤ) - (r' : ℤ) := by
        have en' : (B : ℤ) * q' + r' = A * 2 ^ m := by exact_mod_cast en
        have hqe' : (q' : ℤ) = 2 ^ m * t + (2 ^ m - 1) := by
          have h1 : (1 : ℕ) ≤ 2 ^ m := hPm
          zify [h1] at hqe
          exact_mod_cast hqe
        rw [hqe'] at en'
        linear_combination en'
      have hu : (1 : ℤ) ≤ (B : ℤ) * (t + 1) - A := by
        rcases le_or_lt 1 ((B : ℤ) * (t + 1) - A) with h | h
        · exact h
        · exfalso
          have h0 : (B : ℤ) * (t + 1) - A ≤ 0 := by omega
          have : ((2 : ℤ) ^ m) * ((B : ℤ) * (t + 1) - A) ≤ 0 :=
            mul_nonpos_of_nonneg_of_nonpos (by positivity) h0
          have hrB : (r' : ℤ) < B := by exact_mod_cast hr
          omega
      have hBge : (2 : ℤ) * 2 ^ m ≤ (B : ℤ) := by
        have h1 : (2 : ℤ) ^ m ≤ (2 : ℤ) ^ m * ((B : ℤ) * (t + 1) - A) :=
          le_mul_of_one_le_right (by positivity) hu
        have hround' : (B : ℤ) ≤ 2 * r' := by exact_mod_cast hround
        omega
      have hBge' : 2 ^ (m + 1) ≤ B := by
        have : ((2 : ℤ) ^ (m + 1)) ≤ (B : ℤ) := by rw [pow_succ]; linarith
        exact_mod_cast this
      have h1153 : (2 : ℕ) ^ 1153 ≤ A * 2 ^ 1100 := by
        calc (2 : ℕ) ^ 1153 = 2 ^ (m + 1) * 2 ^ L := by
              rw [← pow_add]; congr 1; omega
          _ ≤ B * 2 ^ L := Nat.mul_le_mul_right _ hBge'
          _ ≤ A * 2 ^ 1100 := hlow
      have h53 : (2 : ℕ) ^ 53 ≤ A := by
        have h' : (2 : ℕ) ^ 53 * 2 ^ 1100 ≤ A * 2 ^ 1100 := by
          rw [← pow_add]; exact h1153
        exact Nat.le_of_mul_le_mul_right h' (Nat.pos_pow_of_pos _ (by norm_num))
      omega
    · -- the round-up does not cross a multiple of 2^m
      have hstep : (A * 2 ^ m / B + 1) / 2 ^ m = A * 2 ^ m / B / 2 ^ m := by
        set q' := A * 2 ^ m / B with hq'
        set t := q' / 2 ^ m with ht
        set c := q' % 2 ^ m with hcdef
        have hc1 : c + 1 < 2 ^ m := by omega
        have hre : q' + 1 = (c + 1) + 2 ^ m * t := by omega
        rw [hre, Nat.add_mul_div_left _ _ hPm, Nat.div_eq_of_lt hc1, Nat.zero_add]
      rw [hstep]
      exact base

set_option maxHeartbeats 1000000 in
theorem floatDivPos_spec (A B : Nat) (hB : 1 ≤ B) (hA : A < 2 ^ 53) :
    ∃ s m : Nat, floatDivPos A B = some (s, -(m : Int)) ∧ s / 2 ^ m = A / B := by
  have h53_1024 : (2 : ℕ) ^ 53 ≤ 2 ^ 1024 := Nat.pow_le_pow_right (by norm_num) (by norm_num)
  have hov : ¬ (B <<< 1024 ≤ A) := by
    rw [Nat.shiftLeft_eq]
    have h2 : (2 : ℕ) ^ 1024 ≤ B * 2 ^ 1024 := Nat.le_mul_of_pos_left _ (by omega)
    omega
  by_cases hsub : A <<< 1022 < B
  · refine ⟨rne (A <<< 1074) B, 1074, ?_, ?_⟩
    · unfold floatDivPos
      rw [if_neg hov, if_pos hsub]
      norm_num
    · rw [Nat.shiftLeft_eq] at hsub ⊢
      have hApos : A ≤ A * 2 ^ 1022 := Nat.le_mul_of_pos_right _ (by positivity)
      have hAB : A < B := lt_of_le_of_lt hApos hsub
      have hq : A * 2 ^ 1074 / B < 2 ^ 52 := by
        rw [Nat.div_lt_iff_lt_mul (by omega)]
        calc A * 2 ^ 1074 = A * 2 ^ 1022 * 2 ^ 52 := by rw [mul_assoc, ← pow_add]
          _ < B * 2 ^ 52 := (Nat.mul_lt_mul_right (by positivity)).mpr hsub
          _ ≤ 2 ^ 52 * B := by rw [mul_comm]
      have hs : rne (A * 2 ^ 1074) B < 2 ^ 1074 := by
        have h1 := rne_le (A * 2 ^ 1074) B
        have h52 : (2 : ℕ) ^ 52 < 2 ^ 1074 :=
          Nat.pow_lt_pow_right (by norm_num) (by norm_num)
        omega
      rw [Nat.div_eq_of_lt hs, Nat.div_eq_of_lt hAB]
  · have hsub' : B ≤ A * 2 ^ 1022 := by
      rw [Nat.shiftLeft_eq] at hsub; omega
    have hbig : A * 2 ^ 1100 < 2 ^ 1153 := by
      calc A * 2 ^ 1100 < 2 ^ 53 * 2 ^ 1100 := (Nat.mul_lt_mul_right (by positivity)).mpr hA
        _ = 2 ^ 1153 := by rw [← pow_add]
    have hq0pos : 1 ≤ A <<< 1100 / B := by
      rw [Nat.shiftLeft_eq, Nat.le_div_iff_mul_le (by omega), one_mul]
      calc B ≤ A * 2 ^ 1022 := hsub'
        _ ≤ A * 2 ^ 1100 :=
          Nat.mul_le_mul_left _ (Nat.pow_le_pow_right (by norm_num) (by norm_num))
    have hq0lt : A <<< 1100 / B < 2 ^ 4096 := by
      rw [Nat.shiftLeft_eq]
      have h1 : A * 2 ^ 1100 / B ≤ A * 2 ^ 1100 := Nat.div_le_self _ _
      have h2 : (2 : ℕ) ^ 1153 ≤ 2 ^ 4096 := Nat.pow_le_pow_right (by norm_num) (by norm_num)
      omega
    obtain ⟨hbl, hbh⟩ := lg_binade _ hq0pos hq0lt
    set L := lg (A <<< 1100 / B) with hLdef
    have hlow : B * 2 ^ L ≤ A * 2 ^ 1100 := by
      calc B * 2 ^ L ≤ B * (A <<< 1100 / B) := Nat.mul_le_mul_left _ hbl
        _ ≤ A * 2 ^ 1100 := by rw [Nat.shiftLeft_eq]; exact Nat.mul_div_le _ _
    have hL78 : 78 ≤ L := by
      have h78 : (2 : ℕ) ^ 78 ≤ A <<< 1100 / B := by
        rw [Nat.shiftLeft_eq, Nat.le_div_iff_mul_le (by omega)]
        calc (2 : ℕ) ^ 78 * B ≤ 2 ^ 78 * (A * 2 ^ 1022) := Nat.mul_le_mul_left _ hsub'
          _ = A * 2 ^ 1100 := by
            rw [mul_comm ((2 : ℕ) ^ 78), mul_assoc, ← pow_add]
      have hlt := lt_of_le_of_lt h78 hbh
      have := (Nat.pow_lt_pow_iff_right (by norm_num : 1 < 2)).mp hlt
      omega
    have hL1152 : L ≤ 1152 := by
      have h1 : (2 : ℕ) ^ L < 2 ^ 1153 := by
        calc (2 : ℕ) ^ L ≤ A <<< 1100 / B := hbl
          _ ≤ A * 2 ^ 1100 := by rw [Nat.shiftLeft_eq]; exact Nat.div_le_self _ _
          _ < 2 ^ 1153 := hbig
      have := (Nat.pow_lt_pow_iff_right (by norm_num : 1 < 2)).mp h1
      omega
    have ht1 : ((52 : ℤ) - ((L : ℤ) - 1100)).toNat = 1152 - L := by omega
    have ht2 : (((L : ℤ) - 1100) - 52).toNat = 0 := by omega
    have hmL : (1152 - L) + L = 1152 := by omega
    have hdiv := round_div_eq A B (1152 - L) L hB hA hmL hlow
    have hdyov : dyOverflow (rne (A <<< (52 - ((L : ℤ) - 1100)).toNat)
        (B <<< (((L : ℤ) - 1100) - 52).toNat)) (((L : ℤ) - 1100) - 52) = false := by
      rw [ht1, ht2, Nat.shiftLeft_zero, Nat.shiftLeft_eq]
      unfold dyOverflow
      have hsle : rne (A * 2 ^ (1152 - L)) B ≤ A * 2 ^ (1152 - L) + 1 := by
        have h1 := rne_le (A * 2 ^ (1152 - L)) B
        have h2 : A * 2 ^ (1152 - L) / B ≤ A * 2 ^ (1152 - L) := Nat.div_le_self _ _
        omega
      have hAm : A * 2 ^ (1152 - L) ≤ (2 ^ 53 - 1) * 2 ^ (1152 - L) :=
        Nat.mul_le_mul_right _ (by omega)
      have hm1 : 1 ≤ (2 : ℕ) ^ (1152 - L) := Nat.pos_pow_of_pos _ (by norm_num)
      by_cases he : (0 : ℤ) ≤ ((L : ℤ) - 1100) - 52
      · have hLeq : L = 1152 := by omega
        rw [if_pos he]
        simp only [decide_eq_false_iff_not, not_le]
        have htN : (((L : ℤ) - 1100) - 52).toNat = 0 := by omega
        rw [htN, Nat.shiftLeft_zero, Nat.shiftLeft_eq, one_mul]
        have hz : 1152 - L = 0 := by omega
        rw [hz, pow_zero, mul_one] at hsle ⊢
        omega
      · rw [if_neg he]
        simp only [decide_eq_false_iff_not, not_le]
        have htN : (-(((L : ℤ) - 1100) - 52)).toNat = 1152 - L := by omega
        rw [htN, Nat.shiftLeft_eq, one_mul]
        have e1 : (2 : ℕ) ^ (1024 + (1152 - L)) = 2 ^ 1024 * 2 ^ (1152 - L) := pow_add 2 _ _
        omega
    refine ⟨rne (A <<< (52 - ((L : ℤ) - 1100)).toNat)
        (B <<< (((L : ℤ) - 1100) - 52).toNat), 1152 - L, ?_, ?_⟩
    · show floatDivPos A B = _
      unfold floatDivPos
      rw [if_neg hov, if_neg hsub]
      simp only [← hLdef, hdyov, Bool.false_eq_true, if_false]
      have he2 : ((L : ℤ) - 1100) - 52 = -(((1152 - L : ℕ) : ℤ)) := by omega
      rw [he2]
    · rw [ht1, ht2, Nat.shiftLeft_zero, Nat.shiftLeft_eq]
      exact hdiv

theorem pytrunc_negExp (s m : Nat) :
    pytrunc ⟨(s : Int), -(m : Int)⟩ = ((s / 2 ^ m : Nat) : Int) := by
  unfold pytrunc
  by_cases hm : m = 0
  · subst hm
    norm_num [Nat.shiftLeft_eq]
  · have h1 : ¬ (0 : Int) ≤ -(m : Int) := by omega
    rw [if_neg h1]
    have h2 : (- -(m : Int)).toNat = m := by omega
    rw [h2, Nat.shiftLeft_eq, one_mul]
    rfl

theorem pytrunc_floatDiv_eq_tdiv (a b : Int) (ha : 0 ≤ a) (hb : 0 < b)
    (hA : a < 2 ^ 53) :
    (floatDiv a b).map pytrunc = some (Int.tdiv a b) := by
  lift a to ℕ using ha with A
  lift b to ℕ using hb.le with B
  have hB : 1 ≤ B := by exact_mod_cast hb
  have hA' : A < 2 ^ 53 := by exact_mod_cast hA
  obtain ⟨s, m, hfd, hdiv⟩ := floatDivPos_spec A B hB hA'
  have hb0 : ((B : Int)) ≠ 0 := by
    simp only [ne_eq]
    omega
  have hna : decide (((A : Int)) < 0) = false := decide_eq_false (by omega)
  have hnb : decide (((B : Int)) < 0) = false := decide_eq_false (by omega)
  unfold floatDiv
  rw [if_neg hb0, Int.natAbs_ofNat, Int.natAbs_ofNat, hfd, hna, hnb]

  simp only [Option.map_some', bne_self_eq_false, if_false, Bool.false_eq_true]
  rw [pytrunc_negExp s m, hdiv]
  rfl

theorem calcular_formula (hoje : PyDate) (r : RemedioDB) (s0 : String) (d0 : PyDate)
    (hdi : r.data_inicio = some s0) (hp : fromisoformat s0 = some d0)
    (hdose : 0 < r.dose_diaria) (hbox0 : 0 ≤ r.doses_caixa)
    (hbox : r.doses_caixa < 2 ^ 53) :
    calcular_dias_restantes hoje r =
      Int.tdiv r.doses_caixa r.dose_diaria - dateDiffDays hoje d0 := by
  have hs0 : s0 ≠ "" := by
    intro h
    rw [h] at hp
    simp [fromisoformat, String.data] at hp
  have hcond : ¬ (s0 = "" ∨ r.dose_diaria ≤ 0) := by
    push_neg
    exact ⟨hs0, by omega⟩
  have hmap := pytrunc_floatDiv_eq_tdiv r.doses_caixa r.dose_diaria hbox0 hdose hbox
  cases hfd : floatDiv r.doses_caixa r.dose_diaria with
  | none => rw [hfd] at hmap; simp at hmap
  | some q =>
    rw [hfd] at hmap
    simp only [Option.map_some', Option.some_inj] at hmap
    simp only [calcular_dias_restantes, hdi, if_neg hcond, hp, hfd, hmap]

/-! ### Facts about the handlers -/

theorem replaceFirstById_map_of_find (rid : Int) (new : RemedioDB)
    (l : List RemedioDB) (f : RemedioDB)
    (hfind : l.find? (fun r => r.id == rid) = some f)
    (hid : new.id = f.id) (hdi : new.data_inicio = f.data_inicio) :
    (replaceFirstById rid new l).map (fun r => (r.id, r.data_inicio)) =
      l.map (fun r => (r.id, r.data_inicio)) := by
  induction l with
  | nil => simp [List.find?] at hfind
  | cons r t ih =>
    by_cases h : r.id = rid
    · rw [List.find?_cons_of_pos _ (by simpa using h)] at hfind
      have hf : f = r := by injection hfind with h'; exact h'.symm
      subst hf
      simp [replaceFirstById, h, hid, hdi]
    · rw [List.find?_cons_of_neg _ (by simpa using h)] at hfind
      simp [replaceFirstById, h, ih hfind]

theorem replaceFirstById_mem_of_find (rid : Int) (new : RemedioDB)
    (l : List RemedioDB) (f : RemedioDB)
    (hfind : l.find? (fun r => r.id == rid) = some f) :
    new ∈ replaceFirstById rid new l := by
  induction l with
  | nil => simp [List.find?] at hfind
  | cons r t ih =>
    by_cases h : r.id = rid
    · simp [replaceFirstById, h]
    · rw [List.find?_cons_of_neg _ (by simpa using h)] at hfind
      simp [replaceFirstById, h, ih hfind]

theorem filter_after_remove (rid : Int) (l : List HistoricoDB) :
    (l.filter (fun h => !(h.remedio_id == rid))).filter
      (fun h => h.remedio_id == rid) = [] := by
  induction l with
  | nil => rfl
  | cons h t ih =>
    simp only [List.filter]
    by_cases hh : h.remedio_id = rid
    · have h1 : (!(h.remedio_id == rid)) = false := by simp [hh]
      rw [h1]
      exact ih
    · have h1 : (!(h.remedio_id == rid)) = true := by simp [hh]
      rw [h1]
      simp only [List.filter]
      have h2 : (h.remedio_id == rid) = false := by simp [hh]
      rw [h2]
      exact ih

theorem mkHistRows_filter_self (startId : Nat) (rid : Int)
    (l : List HistoricoCompra) :
    (mkHistRows startId rid l).filter (fun h => h.remedio_id == rid) =
      mkHistRows startId rid l := by
  induction l generalizing startId with
  | nil => rfl
  | cons h t ih => simp [mkHistRows, List.filter, ih]

theorem mkHistRows_proj (startId : Nat) (rid : Int) (l : List HistoricoCompra) :
    (mkHistRows startId rid l).map
      (fun h => (⟨h.preco, h.local_⟩ : HistoricoCompra)) = l := by
  induction l generalizing startId with
  | nil => rfl
  | cons h t ih => simp [mkHistRows, ih]

/-! ### Claim theorems -/

/-- C1 (amended): whenever the stored start date parses as a calendar date,
the dose is positive and `0 ≤ boxSize < 2^53`, the calculator returns the
truncated integer quotient `boxSize / dailyDose` minus the elapsed whole
days — unclamped, so the result may be negative.  (As stated over every
`boxSize ≥ 0` the claim fails: the source computes the duration through
binary64 division, which rounds once `boxSize / dailyDose` needs more than
53 bits — see the counterexample.) -/
theorem C1_days_remaining_formula (hoje d0 : PyDate) (r : RemedioDB) (s0 : String)
    (hdi : r.data_inicio = some s0) (hp : fromisoformat s0 = some d0)
    (hdose : 0 < r.dose_diaria) (hbox0 : 0 ≤ r.doses_caixa)
    (hbox : r.doses_caixa < 2 ^ 53) :
    calcular_dias_restantes hoje r =
      Int.tdiv r.doses_caixa r.dose_diaria - dateDiffDays hoje d0 :=
  calcular_formula hoje r s0 d0 hdi hp hdose hbox0 hbox

/-- C1 witness: the spec's own example `startDate = today − 20 days`,
`boxSize = 30`, `dailyDose = 3` gives `-10`, not clamped. -/
theorem C1_days_remaining_formula_witness :
    fromisoformat "2024-02-19" = some ⟨2024, 2, 19⟩ ∧
    calcular_dias_restantes ⟨2024, 3, 10⟩
        ⟨1, "remedio", 3, 30, some "", some "2024-02-19", some false⟩ =
      Int.tdiv 30 3 - dateDiffDays ⟨2024, 3, 10⟩ ⟨2024, 2, 19⟩ ∧
    calcular_dias_restantes ⟨2024, 3, 10⟩
        ⟨1, "remedio", 3, 30, some "", some "2024-02-19", some false⟩ = -10 :=
  ⟨by decide,
   C1_days_remaining_formula ⟨2024, 3, 10⟩ ⟨2024, 2, 19⟩
     ⟨1, "remedio", 3, 30, some "", some "2024-02-19", some false⟩ "2024-02-19"
     rfl (by decide) (by decide) (by decide) (by decide),
   by decide⟩

/-- C1 counterexample: at `boxSize = 13510798882111490 = 3 * 2^52 + 2`,
`dailyDose = 3`, zero days elapsed, the code returns `2^52 + 1` while the
claimed truncated-quotient formula gives `2^52`. -/
theorem C1_counterexample :
    calcular_dias_restantes ⟨2024, 3, 10⟩
        ⟨1, "r", 3, 13510798882111490, some "", some "2024-03-10", some false⟩ =
      4503599627370497 ∧
    Int.tdiv (13510798882111490 : Int) 3 -
        dateDiffDays ⟨2024, 3, 10⟩ ⟨2024, 3, 10⟩ = 4503599627370496 ∧
    calcular_dias_restantes ⟨2024, 3, 10⟩
        ⟨1, "r", 3, 13510798882111490, some "", some "2024-03-10", some false⟩ ≠
      Int.tdiv (13510798882111490 : Int) 3 -
        dateDiffDays ⟨2024, 3, 10⟩ ⟨2024, 3, 10⟩ :=
  ⟨by decide, by decide, by decide⟩

/-- C2: a missing start date or a non-positive daily dose makes the
calculator return `0`, whatever the other inputs are. -/
theorem C2_zero_on_missing_or_nonpositive (hoje : PyDate) (r : RemedioDB)
    (h : r.data_inicio = none ∨ r.dose_diaria ≤ 0) :
    calcular_dias_restantes hoje r = 0 := by
  rcases h with h | h
  · simp [calcular_dias_restantes, h]
  · cases hdi : r.data_inicio with
    | none => simp [calcular_dias_restantes, hdi]
    | some s => simp [calcular_dias_restantes, hdi, h]

/-- C2 witness: both guard branches at concrete inputs. -/
theorem C2_zero_on_missing_or_nonpositive_witness :
    (((⟨1, "a", 3, 30, some "", none, some false⟩ : RemedioDB).data_inicio = none ∨
        (⟨1, "a", 3, 30, some "", none, some false⟩ : RemedioDB).dose_diaria ≤ 0) ∧
      calcular_dias_restantes ⟨2024, 3, 10⟩
        ⟨1, "a", 3, 30, some "", none, some false⟩ = 0) ∧
    (((⟨1, "a", 0, 30, some "", some "2024-03-01", some false⟩ : RemedioDB).data_inicio = none ∨
        (⟨1, "a", 0, 30, some "", some "2024-03-01", some false⟩ : RemedioDB).dose_diaria ≤ 0) ∧
      calcular_dias_restantes ⟨2024, 3, 10⟩
        ⟨1, "a", 0, 30, some "", some "2024-03-01", some false⟩ = 0) :=
  ⟨⟨Or.inl rfl, C2_zero_on_missing_or_nonpositive _ _ (Or.inl rfl)⟩,
   ⟨Or.inr (by decide), C2_zero_on_missing_or_nonpositive _ _ (Or.inr (by decide))⟩⟩

/-- C3 (amended): for `0 ≤ boxSize < 2^53` and a positive dose, the total
duration the code computes — `int(boxSize / dailyDose)` through binary64
division — equals the integer quotient truncated toward zero.  (As stated
over all `boxSize ≥ 0` it fails: the float division rounds, see the
counterexample.) -/
theorem C3_total_duration_truncated (b d : Int) (hb : 0 ≤ b)
    (hlt : b < 2 ^ 53) (hd : 0 < d) :
    (floatDiv b d).map pytrunc = some (Int.tdiv b d) :=
  pytrunc_floatDiv_eq_tdiv b d hb hd hlt

/-- C3 witness: the spec's example `boxSize = 10, dailyDose = 3` gives
duration `3`. -/
theorem C3_total_duration_truncated_witness :
    (0 : Int) ≤ 10 ∧ (10 : Int) < 2 ^ 53 ∧ (0 : Int) < 3 ∧
    (floatDiv 10 3).map pytrunc = some (Int.tdiv 10 3) ∧
    (floatDiv 10 3).map pytrunc = some 3 :=
  ⟨by decide, by decide, by decide,
   C3_total_duration_truncated 10 3 (by decide) (by decide) (by decide),
   by decide⟩

/-- C3 counterexample: `boxSize = 13510798882111490`, `dailyDose = 3`: the
code's duration is `2^52 + 1`, the truncated quotient is `2^52` — the
arithmetic is not exact integer division. -/
theorem C3_counterexample :
    (floatDiv 13510798882111490 3).map pytrunc = some 4503599627370497 ∧
    Int.tdiv (13510798882111490 : Int) 3 = 4503599627370496 ∧
    (floatDiv 13510798882111490 3).map pytrunc ≠
      some (Int.tdiv (13510798882111490 : Int) 3) :=
  ⟨by decide, by decide, by decide⟩

/-- C4: the calculator is total — for every clock value and stored row it
returns an integer, either `0` (guard or swallowed exception) or the
duration-minus-elapsed value; and the result can indeed be negative. -/
theorem C4_calculator_total :
    (∀ (hoje : PyDate) (r : RemedioDB),
      calcular_dias_restantes hoje r = 0 ∨
      ∃ s0 d0 q, r.data_inicio = some s0 ∧ fromisoformat s0 = some d0 ∧
        floatDiv r.doses_caixa r.dose_diaria = some q ∧
        calcular_dias_restantes hoje r = pytrunc q - dateDiffDays hoje d0) ∧
    (∃ (hoje : PyDate) (r : RemedioDB), 0 < r.dose_diaria ∧ 0 ≤ r.doses_caixa ∧
      calcular_dias_restantes hoje r < 0) := by
  constructor
  · intro hoje r
    unfold calcular_dias_restantes
    cases hdi : r.data_inicio with
    | none => exact Or.inl rfl
    | some s0 =>
      dsimp only
      by_cases hc : s0 = "" ∨ r.dose_diaria ≤ 0
      · rw [if_pos hc]
        exact Or.inl rfl
      · rw [if_neg hc]
        cases hp : fromisoformat s0 with
        | none => exact Or.inl rfl
        | some d0 =>
          cases hq : floatDiv r.doses_caixa r.dose_diaria with
          | none => exact Or.inl rfl
          | some q => exact Or.inr ⟨s0, d0, q, rfl, hp, rfl, rfl⟩
  · exact ⟨⟨2024, 3, 10⟩, ⟨1, "a", 3, 30, some "", some "2024-02-19", some false⟩,
      by decide, by decide, by decide⟩

theorem fromisoformat_empty : fromisoformat "" = none := rfl

/-- C5 (amended): the calculator reads the clock internally
(`hoje = date.today()` in the body), so it is not a function of the stored
row alone; but for a fixed clock reading its result depends only on
`data_inicio`, `dose_diaria` and `doses_caixa` — no other field and no
hidden state. -/
theorem C5_deterministic_given_clock (hoje : PyDate) (r1 r2 : RemedioDB)
    (h1 : r1.data_inicio = r2.data_inicio) (h2 : r1.dose_diaria = r2.dose_diaria)
    (h3 : r1.doses_caixa = r2.doses_caixa) :
    calcular_dias_restantes hoje r1 = calcular_dias_restantes hoje r2 := by
  obtain ⟨i1, n1, dd1, dc1, c1, di1, nl1⟩ := r1
  obtain ⟨i2, n2, dd2, dc2, c2, di2, nl2⟩ := r2
  dsimp only at h1 h2 h3
  subst h1
  subst h2
  subst h3
  rfl

/-- C5 witness: rows agreeing on the three calculation fields but differing
everywhere else give the same result. -/
theorem C5_deterministic_given_clock_witness :
    ((⟨1, "a", 3, 30, some "", some "2024-02-19", some false⟩ : RemedioDB).data_inicio =
      (⟨2, "b", 3, 30, none, some "2024-02-19", some true⟩ : RemedioDB).data_inicio) ∧
    calcular_dias_restantes ⟨2024, 3, 10⟩
        ⟨1, "a", 3, 30, some "", some "2024-02-19", some false⟩ =
      calcular_dias_restantes ⟨2024, 3, 10⟩
        ⟨2, "b", 3, 30, none, some "2024-02-19", some true⟩ :=
  ⟨rfl, C5_deterministic_given_clock ⟨2024, 3, 10⟩ _ _ rfl rfl rfl⟩

/-- C5 counterexample: the claim's premise — `today` an explicit parameter
of the calculator rather than a clock read inside it — is false for the
source: the very same stored row yields `10` at one clock date and `9` one
day later, so the result is not determined by the function's one argument. -/
theorem C5_counterexample :
    calcular_dias_restantes ⟨2024, 3, 10⟩
        ⟨1, "a", 3, 30, some "", some "2024-03-10", some false⟩ = 10 ∧
    calcular_dias_restantes ⟨2024, 3, 11⟩
        ⟨1, "a", 3, 30, some "", some "2024-03-10", some false⟩ = 9 ∧
    calcular_dias_restantes ⟨2024, 3, 10⟩
        ⟨1, "a", 3, 30, some "", some "2024-03-10", some false⟩ ≠
      calcular_dias_restantes ⟨2024, 3, 11⟩
        ⟨1, "a", 3, 30, some "", some "2024-03-10", some false⟩ :=
  ⟨by decide, by decide, by decide⟩

/-- C6 (amended): when today precedes the parsed start date (and the float
division succeeds), the elapsed-day count is negative and the returned
count strictly exceeds the total duration the code computes,
`int(boxSize / dailyDose)`; this equals the truncated integer quotient for
`boxSize < 2^53`, but not in general — see the counterexample. -/
theorem C6_future_start_exceeds_duration (hoje d0 : PyDate) (r : RemedioDB)
    (s0 : String) (q : PyFloat)
    (hdi : r.data_inicio = some s0) (hp : fromisoformat s0 = some d0)
    (hdose : 0 < r.dose_diaria)
    (hq : floatDiv r.doses_caixa r.dose_diaria = some q)
    (hneg : dateDiffDays hoje d0 < 0) :
    calcular_dias_restantes hoje r = pytrunc q - dateDiffDays hoje d0 ∧
    pytrunc q < calcular_dias_restantes hoje r := by
  have hs0 : s0 ≠ "" := by
    intro h
    rw [h, fromisoformat_empty] at hp
    exact Option.noConfusion hp
  have hcond : ¬ (s0 = "" ∨ r.dose_diaria ≤ 0) := by
    push_neg
    exact ⟨hs0, by omega⟩
  have heq : calcular_dias_restantes hoje r = pytrunc q - dateDiffDays hoje d0 := by
    simp only [calcular_dias_restantes, hdi, if_neg hcond, hp, hq]
  exact ⟨heq, by omega⟩

/-- C6 witness: the spec's example `startDate = today + 3 days`,
`boxSize = 30`, `dailyDose = 3` gives `13 > 10`. -/
theorem C6_future_start_exceeds_duration_witness :
    fromisoformat "2024-03-13" = some ⟨2024, 3, 13⟩ ∧
    floatDiv 30 3 = some ⟨5629499534213120, -49⟩ ∧
    dateDiffDays ⟨2024, 3, 10⟩ ⟨2024, 3, 13⟩ < 0 ∧
    pytrunc ⟨5629499534213120, -49⟩ <
      calcular_dias_restantes ⟨2024, 3, 10⟩
        ⟨1, "a", 3, 30, some "", some "2024-03-13", some false⟩ ∧
    calcular_dias_restantes ⟨2024, 3, 10⟩
        ⟨1, "a", 3, 30, some "", some "2024-03-13", some false⟩ = 13 :=
  ⟨by decide, by decide, by decide,
   (C6_future_start_exceeds_duration ⟨2024, 3, 10⟩ ⟨2024, 3, 13⟩
     ⟨1, "a", 3, 30, some "", some "2024-03-13", some false⟩ "2024-03-13"
     ⟨5629499534213120, -49⟩ rfl (by decide) (by decide) (by decide) (by decide)).2,
   by decide⟩

/-- C6 counterexample: at `boxSize = 2^53 + 1`, `dailyDose = 1` and a start
date one day in the future, the returned count equals the truncated
quotient `totalDurationDays` instead of exceeding it (the float division
already lost the `+1`). -/
theorem C6_counterexample :
    dateDiffDays ⟨2024, 3, 10⟩ ⟨2024, 3, 11⟩ < 0 ∧
    calcular_dias_restantes ⟨2024, 3, 10⟩
        ⟨1, "a", 1, 9007199254740993, some "", some "2024-03-11", some false⟩ =
      9007199254740993 ∧
    Int.tdiv (9007199254740993 : Int) 1 = 9007199254740993 ∧
    ¬ (Int.tdiv (9007199254740993 : Int) 1 <
        calcular_dias_restantes ⟨2024, 3, 10⟩
          ⟨1, "a", 1, 9007199254740993, some "", some "2024-03-11", some false⟩) :=
  ⟨by decide, by decide, by decide, by decide⟩

/-- C9: the bare `except` around the whole computation returns `0` both for
an unparseable stored start-date string (`ValueError`) and for a quotient
too large for a float (`OverflowError`) — a blanket suppression, not only
of date-parse errors. -/
theorem C9_catchall_returns_zero :
    (∀ (hoje : PyDate) (r : RemedioDB) (s0 : String),
      r.data_inicio = some s0 → s0 ≠ "" → fromisoformat s0 = none →
      calcular_dias_restantes hoje r = 0) ∧
    (∀ (hoje : PyDate) (r : RemedioDB) (s0 : String),
      r.data_inicio = some s0 →
      floatDiv r.doses_caixa r.dose_diaria = none →
      calcular_dias_restantes hoje r = 0) := by
  constructor
  · intro hoje r s0 hdi hne hp
    by_cases hc : s0 = "" ∨ r.dose_diaria ≤ 0
    · simp [calcular_dias_restantes, hdi, hc]
    · simp [calcular_dias_restantes, hdi, hc, hp]
  · intro hoje r s0 hdi hq
    by_cases hc : s0 = "" ∨ r.dose_diaria ≤ 0
    · simp [calcular_dias_restantes, hdi, hc]
    · cases hp : fromisoformat s0 with
      | none => simp [calcular_dias_restantes, hdi, hc, hp]
      | some d0 => simp [calcular_dias_restantes, hdi, hc, hp, hq]

/-- C9 witness: an unparseable stored string ("banana") and an
`OverflowError`-sized box (`2^1200` doses at dose `1`) both yield `0`. -/
theorem C9_catchall_returns_zero_witness :
    (fromisoformat "banana" = none ∧
      calcular_dias_restantes ⟨2024, 3, 10⟩
        ⟨1, "a", 3, 30, some "", some "banana", some false⟩ = 0) ∧
    (floatDiv 17218479456385750618067377696052635483579924745448689921733236816400740691241745619397484537236046173286370919031961587788584927290816661024991609882728717344659503471655990880884679896520055123906467064419056526231345685268240569209892573766037966584735183775739433978714578587782701380797240772477647874555986712746271362892227516205318914435913511141036261376 1 = none ∧
      calcular_dias_restantes ⟨2024, 3, 10⟩
        ⟨1, "a", 1, 17218479456385750618067377696052635483579924745448689921733236816400740691241745619397484537236046173286370919031961587788584927290816661024991609882728717344659503471655990880884679896520055123906467064419056526231345685268240569209892573766037966584735183775739433978714578587782701380797240772477647874555986712746271362892227516205318914435913511141036261376, some "", some "2024-03-10", some false⟩ = 0) :=
  ⟨⟨by decide,
    C9_catchall_returns_zero.1 ⟨2024, 3, 10⟩
      ⟨1, "a", 3, 30, some "", some "banana", some false⟩ "banana"
      rfl (by decide) (by decide)⟩,
   ⟨by decide,
    C9_catchall_returns_zero.2 ⟨2024, 3, 10⟩
      ⟨1, "a", 1, 17218479456385750618067377696052635483579924745448689921733236816400740691241745619397484537236046173286370919031961587788584927290816661024991609882728717344659503471655990880884679896520055123906467064419056526231345685268240569209892573766037966584735183775739433978714578587782701380797240772477647874555986712746271362892227516205318914435913511141036261376, some "", some "2024-03-10", some false⟩ "2024-03-10"
      rfl (by decide)⟩⟩

/-- C7: creation stamps `data_inicio` with the current date, and a
successful update leaves every row's `(id, data_inicio)` pair untouched. -/
theorem C7_start_date_create_and_update :
    (∀ (hoje : PyDate) (remedio : RemedioCreate) (db : DBState),
      ((criar_remedio hoje remedio db).2).remedios.map
          (fun r => (r.id, r.data_inicio)) =
        db.remedios.map (fun r => (r.id, r.data_inicio)) ++
          [(db.nextRemedioId, some (PyDate.toIso hoje))]) ∧
    (∀ (hoje : PyDate) (rid : Int) (upd : RemedioCreate) (db : DBState)
        (resp : RemedioResponse) (db2 : DBState),
      atualizar_remedio hoje rid upd db = some (resp, db2) →
      db2.remedios.map (fun r => (r.id, r.data_inicio)) =
        db.remedios.map (fun r => (r.id, r.data_inicio))) := by
  constructor
  · intro hoje remedio db
    simp [criar_remedio]
  · intro hoje rid upd db resp db2 h
    unfold atualizar_remedio at h
    cases hfind : db.remedios.find? (fun r => r.id == rid) with
    | none => rw [hfind] at h; exact Option.noConfusion h
    | some f =>
      rw [hfind] at h
      simp only [Option.some_inj, Prod.mk.injEq] at h
      obtain ⟨hresp, hdb⟩ := h
      rw [← hdb]
      exact replaceFirstById_map_of_find rid _ db.remedios f hfind rfl rfl

/-- C7 witness: the concrete update on `witDB` keeps `(id, data_inicio)`;
creation stamps today. -/
theorem C7_start_date_create_and_update_witness :
    ((criar_remedio ⟨2024, 3, 10⟩ witUpd witDB).2).remedios.map
        (fun r => (r.id, r.data_inicio)) =
      witDB.remedios.map (fun r => (r.id, r.data_inicio)) ++
        [(witDB.nextRemedioId, some (PyDate.toIso ⟨2024, 3, 10⟩))] ∧
    atualizar_remedio ⟨2024, 3, 10⟩ 1 witUpd witDB = some (witResp, witDB') ∧
    witDB'.remedios.map (fun r => (r.id, r.data_inicio)) =
      witDB.remedios.map (fun r => (r.id, r.data_inicio)) :=
  ⟨C7_start_date_create_and_update.1 ⟨2024, 3, 10⟩ witUpd witDB,
   by decide,
   C7_start_date_create_and_update.2 ⟨2024, 3, 10⟩ 1 witUpd witDB witResp witDB'
     (by decide)⟩

/-- C8: `dias_restantes` in every read path is freshly recomputed from the
stored row at response time (the request schema has no such field and no
table stores it): each listing entry, the create response and the update
response carry `calcular_dias_restantes` of the row they serialize. -/
theorem C8_days_remaining_recomputed :
    (∀ (hoje : PyDate) (db : DBState),
      (listar_remedios hoje db).map (fun resp => resp.dias_restantes) =
        db.remedios.map (fun r => some (calcular_dias_restantes hoje r))) ∧
    (∀ (hoje : PyDate) (remedio : RemedioCreate) (db : DBState),
      ∃ row, (criar_remedio hoje remedio db).2.remedios = db.remedios ++ [row] ∧
        (criar_remedio hoje remedio db).1.dias_restantes =
          some (calcular_dias_restantes hoje row)) ∧
    (∀ (hoje : PyDate) (rid : Int) (upd : RemedioCreate) (db : DBState)
        (resp : RemedioResponse) (db2 : DBState),
      atualizar_remedio hoje rid upd db = some (resp, db2) →
      ∃ row ∈ db2.remedios,
        resp.dias_restantes = some (calcular_dias_restantes hoje row)) := by
  refine ⟨?_, ?_, ?_⟩
  · intro hoje db
    simp [listar_remedios, respOf]
  · intro hoje remedio db
    exact ⟨_, rfl, rfl⟩
  · intro hoje rid upd db resp db2 h
    unfold atualizar_remedio at h
    cases hfind : db.remedios.find? (fun r => r.id == rid) with
    | none => rw [hfind] at h; exact Option.noConfusion h
    | some f =>
      rw [hfind] at h
      simp only [Option.some_inj, Prod.mk.injEq] at h
      obtain ⟨hresp, hdb⟩ := h
      have hrow := replaceFirstById_mem_of_find rid
        ⟨f.id, upd.nome, upd.dose_diaria, upd.doses_caixa, upd.cpf_convenio,
          f.data_inicio, upd.na_lista_compras⟩ db.remedios f hfind
      exact ⟨_, by rw [← hdb]; exact hrow, by rw [← hresp]; rfl⟩

/-- C8 witness: the concrete update on `witDB` answers with the freshly
computed `dias_restantes` of the updated stored row. -/
theorem C8_days_remaining_recomputed_witness :
    atualizar_remedio ⟨2024, 3, 10⟩ 1 witUpd witDB = some (witResp, witDB') ∧
    (∃ row ∈ witDB'.remedios,
      witResp.dias_restantes = some (calcular_dias_restantes ⟨2024, 3, 10⟩ row)) :=
  ⟨by decide,
   C8_days_remaining_recomputed.2.2 ⟨2024, 3, 10⟩ 1 witUpd witDB witResp witDB'
     (by decide)⟩

/-- C10: after a successful update, the medication's stored purchase
history is exactly the request's list, in order — whatever was stored
before is gone. -/
theorem C10_update_replaces_history :
    ∀ (hoje : PyDate) (rid : Int) (upd : RemedioCreate) (db : DBState)
      (resp : RemedioResponse) (db2 : DBState),
      atualizar_remedio hoje rid upd db = some (resp, db2) →
      (db2.historico.filter (fun h => h.remedio_id == rid)).map
          (fun h => (⟨h.preco, h.local_⟩ : HistoricoCompra)) =
        upd.historico_compras := by
  intro hoje rid upd db resp db2 h
  unfold atualizar_remedio at h
  cases hfind : db.remedios.find? (fun r => r.id == rid) with
  | none => rw [hfind] at h; exact Option.noConfusion h
  | some f =>
    rw [hfind] at h
    simp only [Option.some_inj, Prod.mk.injEq] at h
    obtain ⟨hresp, hdb⟩ := h
    rw [← hdb]
    dsimp only
    rw [List.filter_append, filter_after_remove, List.nil_append,
      mkHistRows_filter_self, mkHistRows_proj]

/-- C10 witness: the concrete update on `witDB` ends with exactly the
supplied single-entry history. -/
theorem C10_update_replaces_history_witness :
    atualizar_remedio ⟨2024, 3, 10⟩ 1 witUpd witDB = some (witResp, witDB') ∧
    (witDB'.historico.filter (fun h => h.remedio_id == 1)).map
        (fun h => (⟨h.preco, h.local_⟩ : HistoricoCompra)) =
      witUpd.historico_compras :=
  ⟨by decide,
   C10_update_replaces_history ⟨2024, 3, 10⟩ 1 witUpd witDB witResp witDB'
     (by decide)⟩
